import Mathlib

/-!
Shallow embedding of the DRI3 buffer-sharing backend in
`src/amdgpu_dri3.c` (xf86-video-amdgpu).

External collaborators (X server screen hooks, GBM, libdrm, glamor) are
modelled by an environment record of call outcomes; each embedded
function mirrors the C control flow over that environment and, where a
claim is about which collaborator calls happen (import-path selection,
pixmap destruction, fd closing, magic handshake), additionally returns
an event trace listing those calls in order.

Machine integers are modelled as `Nat`/`Int`; the relevant C constants
(drm_fourcc.h, amdgpu_drm.h, gbm.h, X.h, errno) are defined below with
their concrete values.
-/

/-- drm_fourcc.h: DRM_FORMAT_MOD_INVALID = fourcc_mod_code(NONE, (1<<56)-1). -/
def DRM_FORMAT_MOD_INVALID : Nat := 0x00ffffffffffffff

/-- drm_fourcc.h: AMD_FMT_MOD = fourcc_mod_code(AMD, 0), vendor AMD = 0x02. -/
def AMD_FMT_MOD : Nat := 0x0200000000000000

/-- drm_fourcc.h: AMD_FMT_MOD_TILE_VER_GFX9. -/
def AMD_FMT_MOD_TILE_VER_GFX9 : Nat := 1

/-- drm_fourcc.h: AMD_FMT_MOD_TILE_VER_GFX10. -/
def AMD_FMT_MOD_TILE_VER_GFX10 : Nat := 2

/-- drm_fourcc.h: AMD_FMT_MOD_TILE_VER_GFX12. -/
def AMD_FMT_MOD_TILE_VER_GFX12 : Nat := 5

/-- drm_fourcc.h: AMD_FMT_MOD_TILE_GFX9_64K_S. -/
def AMD_FMT_MOD_TILE_GFX9_64K_S : Nat := 9

/-- drm_fourcc.h: AMD_FMT_MOD_TILE_GFX9_64K_D. -/
def AMD_FMT_MOD_TILE_GFX9_64K_D : Nat := 10

/-- drm_fourcc.h: AMD_FMT_MOD_TILE_GFX12_64K_2D. -/
def AMD_FMT_MOD_TILE_GFX12_64K_2D : Nat := 3

/-- amdgpu_drm.h: AMDGPU_FAMILY_AI (Vega10). -/
def AMDGPU_FAMILY_AI : Int := 141

/-- amdgpu_drm.h: AMDGPU_FAMILY_NV (Navi10). -/
def AMDGPU_FAMILY_NV : Int := 143

/-- amdgpu_drm.h: AMDGPU_FAMILY_GC_12_0_0. -/
def AMDGPU_FAMILY_GC_12_0_0 : Int := 152

/-- gbm.h: GBM_FORMAT_ARGB1555 = fourcc code of the four characters AR15. -/
def GBM_FORMAT_ARGB1555 : Nat := 0x35315241

/-- gbm.h: GBM_FORMAT_RGB565 = fourcc code of the four characters RG16. -/
def GBM_FORMAT_RGB565 : Nat := 0x36314752

/-- gbm.h: GBM_FORMAT_XRGB8888 = fourcc code of the four characters XR24. -/
def GBM_FORMAT_XRGB8888 : Nat := 0x34325258

/-- gbm.h: GBM_FORMAT_ARGB2101010 = fourcc code of the four characters AR30. -/
def GBM_FORMAT_ARGB2101010 : Nat := 0x30335241

/-- gbm.h: GBM_FORMAT_ARGB8888 = fourcc code of the four characters AR24. -/
def GBM_FORMAT_ARGB8888 : Nat := 0x34325241

/-- errno.h: EACCES. -/
def EACCES : Nat := 13

/-- `gbm_format_from_depth` (amdgpu_dri3.c, lines 174-197): map X depth to a
GBM format.  The C out-parameter plus TRUE/FALSE result is modelled as an
`Option`: `some format` when the function returns TRUE, `none` for the
default (FALSE) case. -/
def gbm_format_from_depth (depth : Nat) : Option Nat :=
  match depth with
  | 15 => some GBM_FORMAT_ARGB1555
  | 16 => some GBM_FORMAT_RGB565
  | 24 => some GBM_FORMAT_XRGB8888
  | 30 => some GBM_FORMAT_ARGB2101010
  | 32 => some GBM_FORMAT_ARGB8888
  | _ => none

/-- Static table `default_modifiers` in `amdgpu_dri3_get_modifiers`. -/
def default_modifiers : List Nat := [DRM_FORMAT_MOD_INVALID]

/-- Static table `amd_tiled_modifiers` (GFX9 tier) in `amdgpu_dri3_get_modifiers`. -/
def amd_tiled_modifiers : List Nat :=
  [DRM_FORMAT_MOD_INVALID,
   AMD_FMT_MOD ||| AMD_FMT_MOD_TILE_VER_GFX9 ||| AMD_FMT_MOD_TILE_GFX9_64K_S,
   AMD_FMT_MOD ||| AMD_FMT_MOD_TILE_VER_GFX9 ||| AMD_FMT_MOD_TILE_GFX9_64K_D]

/-- Static table `amd_tiled_modifiers_gfx10` in `amdgpu_dri3_get_modifiers`. -/
def amd_tiled_modifiers_gfx10 : List Nat :=
  [DRM_FORMAT_MOD_INVALID,
   AMD_FMT_MOD ||| AMD_FMT_MOD_TILE_VER_GFX10 ||| AMD_FMT_MOD_TILE_GFX9_64K_S,
   AMD_FMT_MOD ||| AMD_FMT_MOD_TILE_VER_GFX10 ||| AMD_FMT_MOD_TILE_GFX9_64K_D]

/-- Static table `amd_tiled_modifiers_gfx12` in `amdgpu_dri3_get_modifiers`. -/
def amd_tiled_modifiers_gfx12 : List Nat :=
  [DRM_FORMAT_MOD_INVALID,
   AMD_FMT_MOD ||| AMD_FMT_MOD_TILE_VER_GFX12 ||| AMD_FMT_MOD_TILE_GFX12_64K_2D]

/-- `amdgpu_dri3_get_modifiers` (amdgpu_dri3.c, lines 496-567): select the
modifier table by ASIC family (`info->family`), walking the thresholds from
newest to oldest.  The returned value models the list copied out through
`*modifiers`/`*num_modifiers` on the success path of the final `malloc`
(allocation itself is abstracted; the claims are about list contents).
Note the `format` argument is never read by the C function; it is kept in
the signature for fidelity. -/
def amdgpu_dri3_get_modifiers (family : Int) (format : Nat) : List Nat :=
  if AMDGPU_FAMILY_GC_12_0_0 ≤ family then amd_tiled_modifiers_gfx12
  else if AMDGPU_FAMILY_NV ≤ family then amd_tiled_modifiers_gfx10
  else if AMDGPU_FAMILY_AI ≤ family then amd_tiled_modifiers
  else default_modifiers

/-- Local static table `gfx12_mods` in `amdgpu_dri3_get_drawable_modifiers`. -/
def gfx12_mods : List Nat :=
  [DRM_FORMAT_MOD_INVALID,
   AMD_FMT_MOD ||| AMD_FMT_MOD_TILE_VER_GFX12 ||| AMD_FMT_MOD_TILE_GFX12_64K_2D]

/-- Local static table `gfx10_mods` in `amdgpu_dri3_get_drawable_modifiers`. -/
def gfx10_mods : List Nat :=
  [DRM_FORMAT_MOD_INVALID,
   AMD_FMT_MOD ||| AMD_FMT_MOD_TILE_VER_GFX10 ||| AMD_FMT_MOD_TILE_GFX9_64K_S,
   AMD_FMT_MOD ||| AMD_FMT_MOD_TILE_VER_GFX10 ||| AMD_FMT_MOD_TILE_GFX9_64K_D]

/-- Local static table `gfx9_mods` in `amdgpu_dri3_get_drawable_modifiers`. -/
def gfx9_mods : List Nat :=
  [DRM_FORMAT_MOD_INVALID,
   AMD_FMT_MOD ||| AMD_FMT_MOD_TILE_VER_GFX9 ||| AMD_FMT_MOD_TILE_GFX9_64K_S,
   AMD_FMT_MOD ||| AMD_FMT_MOD_TILE_VER_GFX9 ||| AMD_FMT_MOD_TILE_GFX9_64K_D]

/-- Local static table `default_mods` in `amdgpu_dri3_get_drawable_modifiers`. -/
def default_mods : List Nat := [DRM_FORMAT_MOD_INVALID]

/-- `amdgpu_dri3_get_drawable_modifiers` (amdgpu_dri3.c, lines 569-633):
same tier selection on `info->family`, over its own duplicated local static
tables.  As in `amdgpu_dri3_get_modifiers`, the value models the list
copied out on the success path of the `malloc`, and the unread `format`
argument is kept for fidelity. -/
def amdgpu_dri3_get_drawable_modifiers (family : Int) (format : Nat) : List Nat :=
  if AMDGPU_FAMILY_GC_12_0_0 ≤ family then gfx12_mods
  else if AMDGPU_FAMILY_NV ≤ family then gfx10_mods
  else if AMDGPU_FAMILY_AI ≤ family then gfx9_mods
  else default_mods

/-- C4: `gbm_format_from_depth` maps exactly the depths 15, 16, 24, 30, 32 to
ARGB1555, RGB565, XRGB8888, ARGB2101010, ARGB8888 respectively and reports
success; for every other depth it reports failure and produces no format. -/
theorem C4_gbm_format_from_depth_table (depth : Nat) :
    (gbm_format_from_depth depth = some GBM_FORMAT_ARGB1555 ↔ depth = 15)
    ∧ (gbm_format_from_depth depth = some GBM_FORMAT_RGB565 ↔ depth = 16)
    ∧ (gbm_format_from_depth depth = some GBM_FORMAT_XRGB8888 ↔ depth = 24)
    ∧ (gbm_format_from_depth depth = some GBM_FORMAT_ARGB2101010 ↔ depth = 30)
    ∧ (gbm_format_from_depth depth = some GBM_FORMAT_ARGB8888 ↔ depth = 32)
    ∧ (gbm_format_from_depth depth = none ↔
        ¬ (depth = 15 ∨ depth = 16 ∨ depth = 24 ∨ depth = 30 ∨ depth = 32)) := by
  unfold gbm_format_from_depth
  split <;>
    simp_all [GBM_FORMAT_ARGB1555, GBM_FORMAT_RGB565, GBM_FORMAT_XRGB8888,
      GBM_FORMAT_ARGB2101010, GBM_FORMAT_ARGB8888]

/-- C9: for every format, `amdgpu_dri3_get_modifiers` returns a list headed by
the linear sentinel; for families at or above the GC-12 threshold the list is
a duplicate-free superset of the list for families below the AI threshold
(which is exactly the one-element linear list); and the tier chosen is the
newest tier whose threshold the family meets or exceeds. -/
theorem C9_get_modifiers_tiering (format : Nat) (family : Int) :
    (amdgpu_dri3_get_modifiers family format).head? = some DRM_FORMAT_MOD_INVALID
    ∧ (AMDGPU_FAMILY_GC_12_0_0 ≤ family →
        ∀ f2 : Int, f2 < AMDGPU_FAMILY_AI →
          amdgpu_dri3_get_modifiers f2 format = [DRM_FORMAT_MOD_INVALID]
          ∧ (∀ m ∈ amdgpu_dri3_get_modifiers f2 format,
              m ∈ amdgpu_dri3_get_modifiers family format)
          ∧ (amdgpu_dri3_get_modifiers family format).Nodup)
    ∧ (AMDGPU_FAMILY_GC_12_0_0 ≤ family →
        amdgpu_dri3_get_modifiers family format = amd_tiled_modifiers_gfx12)
    ∧ (AMDGPU_FAMILY_NV ≤ family → family < AMDGPU_FAMILY_GC_12_0_0 →
        amdgpu_dri3_get_modifiers family format = amd_tiled_modifiers_gfx10)
    ∧ (AMDGPU_FAMILY_AI ≤ family → family < AMDGPU_FAMILY_NV →
        amdgpu_dri3_get_modifiers family format = amd_tiled_modifiers)
    ∧ (family < AMDGPU_FAMILY_AI →
        amdgpu_dri3_get_modifiers family format = default_modifiers) := by
  unfold amdgpu_dri3_get_modifiers
  unfold AMDGPU_FAMILY_GC_12_0_0 AMDGPU_FAMILY_NV AMDGPU_FAMILY_AI
  refine ⟨?_, ?_, ?_, ?_, ?_, ?_⟩
  · split <;> [skip; split <;> [skip; split]] <;>
      simp [amd_tiled_modifiers_gfx12, amd_tiled_modifiers_gfx10,
        amd_tiled_modifiers, default_modifiers]
  · intro h12 f2 hf2
    have h1 : ¬ (152 : Int) ≤ f2 := by omega
    have h2 : ¬ (143 : Int) ≤ f2 := by omega
    have h3 : ¬ (141 : Int) ≤ f2 := by omega
    simp only [h12, if_true, h1, if_false, h2, h3]
    refine ⟨by simp [default_modifiers], ?_, ?_⟩
    · intro m hm
      simp [default_modifiers] at hm
      simp [amd_tiled_modifiers_gfx12, hm]
    · simp [amd_tiled_modifiers_gfx12]
      decide
  · intro h12; simp [h12]
  · intro h10 h12
    have h1 : ¬ (152 : Int) ≤ family := by omega
    simp [h1, h10]
  · intro h9 h10
    have h1 : ¬ (152 : Int) ≤ family := by omega
    have h2 : ¬ (143 : Int) ≤ family := by omega
    simp [h1, h2, h9]
  · intro h
    have h1 : ¬ (152 : Int) ≤ family := by omega
    have h2 : ¬ (143 : Int) ≤ family := by omega
    have h3 : ¬ (141 : Int) ≤ family := by omega
    simp [h1, h2, h3]

/-- Witness for C9 at family 152 (GC-12 tier) against f2 = 140 (below AI). -/
theorem C9_get_modifiers_tiering_witness :
    AMDGPU_FAMILY_GC_12_0_0 ≤ (152 : Int) ∧ (140 : Int) < AMDGPU_FAMILY_AI
    ∧ (amdgpu_dri3_get_modifiers 140 0 = [DRM_FORMAT_MOD_INVALID]
       ∧ (∀ m ∈ amdgpu_dri3_get_modifiers 140 0, m ∈ amdgpu_dri3_get_modifiers 152 0)
       ∧ (amdgpu_dri3_get_modifiers 152 0).Nodup) :=
  ⟨by decide, by decide,
   (C9_get_modifiers_tiering 0 152).2.1 (by decide) 140 (by decide)⟩

/-- C10: for every family, `amdgpu_dri3_get_modifiers` and
`amdgpu_dri3_get_drawable_modifiers` return element-for-element identical
lists, and neither depends on its format argument. -/
theorem C10_modifiers_accessors_agree (family : Int) (fmt1 fmt2 : Nat) :
    amdgpu_dri3_get_modifiers family fmt1
      = amdgpu_dri3_get_drawable_modifiers family fmt1
    ∧ amdgpu_dri3_get_modifiers family fmt1 = amdgpu_dri3_get_modifiers family fmt2
    ∧ amdgpu_dri3_get_drawable_modifiers family fmt1
      = amdgpu_dri3_get_drawable_modifiers family fmt2 := by
  unfold amdgpu_dri3_get_modifiers amdgpu_dri3_get_drawable_modifiers
  refine ⟨?_, rfl, rfl⟩
  split <;> [skip; split <;> [skip; split]] <;>
    simp [amd_tiled_modifiers_gfx12, gfx12_mods, amd_tiled_modifiers_gfx10,
      gfx10_mods, amd_tiled_modifiers, gfx9_mods, default_modifiers, default_mods]

/-- Events recording the collaborator calls the importing claims are about:
pixmap creations that succeeded, pixmap destructions whether through
DestroyPixmap, dixDestroyPixmap or fbDestroyPixmap, the two gbm_bo_import
variants, and any close of a caller-supplied fd (a call the two
importing functions in the source never make). -/
inductive Ev where
  | createPixmap
  | destroyPixmap
  | importMulti
  | importSingle
  | closeFd
deriving DecidableEq

/-- Outcomes of the external calls made by the two import entry points.
Each Boolean says whether the corresponding collaborator call succeeds
(returns non-NULL / TRUE) when it is made. -/
structure ImportEnv where
  use_glamor : Bool
  gbm_device : Bool
  create_ok : Bool
  import_multi_ok : Bool
  import_single_ok : Bool
  textured_ok : Bool
  calloc_ok : Bool
  glamor_fd_ok : Bool
  ng_create_ok : Bool
  ng_modify_ok : Bool
  ng_backing_ok : Bool
deriving DecidableEq

/-- Tail of the glamor path of `amdgpu_dri3_pixmap_from_fds` after
`gbm_bo_import` returned a buffer object (amdgpu_dri3.c, lines 271-292):
the unchecked `ModifyPixmapHeader`, textured-pixmap creation,
`gbm_bo_destroy`, and the private-record `calloc`; on any failure the
pixmap is destroyed (the `error:` label or the explicit `DestroyPixmap`). -/
def glamor_after_import (e : ImportEnv) (t : List Ev) : Option Unit × List Ev :=
  if e.textured_ok then
    if e.calloc_ok then (some (), t)
    else (none, t ++ [Ev.destroyPixmap])
  else (none, t ++ [Ev.destroyPixmap])

/-- The `non_glamor_path` label of `amdgpu_dri3_pixmap_from_fds`
(amdgpu_dri3.c, lines 294-327): single plane only, depth/bpp checks,
`CreatePixmap`, `ModifyPixmapHeader`, `SetSharedPixmapBacking`, with
`fbDestroyPixmap` on the failing tail paths. -/
def pixmap_from_fds_non_glamor (e : ImportEnv) (num_fds : Nat) (depth bpp : Nat) :
    Option Unit × List Ev :=
  if num_fds ≠ 1 then (none, [])
  else if depth < 8 then (none, [])
  else if bpp ≠ 8 ∧ bpp ≠ 16 ∧ bpp ≠ 32 then (none, [])
  else if !e.ng_create_ok then (none, [])
  else if !e.ng_modify_ok then (none, [Ev.createPixmap, Ev.destroyPixmap])
  else if e.ng_backing_ok then (some (), [Ev.createPixmap])
  else (none, [Ev.createPixmap, Ev.destroyPixmap])

/-- `amdgpu_dri3_pixmap_from_fds` (amdgpu_dri3.c, lines 199-328), with the
`GBM_BO_IMPORT_FD_MODIFIER` build option active as the spec assumes.
Returns `some ()` when the C function returns a pixmap and `none` when it
returns NULL, paired with the event trace.  The caller-supplied `fds`,
geometry and per-plane arrays do not influence control flow in the source
and are carried for fidelity only. -/
def amdgpu_dri3_pixmap_from_fds (e : ImportEnv) (num_fds : Nat) (fds : List Int)
    (width height : Nat) (strides offsets : List Nat) (depth bpp : Nat)
    (modifier : Nat) : Option Unit × List Ev :=
  if !e.use_glamor then pixmap_from_fds_non_glamor e num_fds depth bpp
  else if !e.gbm_device then pixmap_from_fds_non_glamor e num_fds depth bpp
  else if !e.create_ok then (none, [])
  else
    match gbm_format_from_depth depth with
    | none => (none, [Ev.createPixmap, Ev.destroyPixmap])
    | some _ =>
      if modifier ≠ DRM_FORMAT_MOD_INVALID ∧ 1 < num_fds then
        if e.import_multi_ok then
          glamor_after_import e [Ev.createPixmap, Ev.importMulti]
        else (none, [Ev.createPixmap, Ev.importMulti, Ev.destroyPixmap])
      else if num_fds ≠ 1 then (none, [Ev.createPixmap, Ev.destroyPixmap])
      else if e.import_single_ok then
        glamor_after_import e [Ev.createPixmap, Ev.importSingle]
      else (none, [Ev.createPixmap, Ev.importSingle, Ev.destroyPixmap])

/-- `amdgpu_dri3_pixmap_from_fd` (amdgpu_dri3.c, lines 117-172): glamor
importing first when acceleration is active (falling through to the direct
path when glamor returns NULL), then the direct single-fd path with depth
and bpp checks, `CreatePixmap`, `ModifyPixmapHeader`,
`SetSharedPixmapBacking` and `fbDestroyPixmap` on the failing tails. -/
def amdgpu_dri3_pixmap_from_fd (e : ImportEnv) (fd : Int)
    (width height stride depth bpp : Nat) : Option Unit × List Ev :=
  if e.use_glamor ∧ e.glamor_fd_ok then
    if e.calloc_ok then (some (), [Ev.createPixmap])
    else (none, [Ev.createPixmap, Ev.destroyPixmap])
  else if depth < 8 then (none, [])
  else if bpp ≠ 8 ∧ bpp ≠ 16 ∧ bpp ≠ 32 then (none, [])
  else if !e.ng_create_ok then (none, [])
  else if !e.ng_modify_ok then (none, [Ev.createPixmap, Ev.destroyPixmap])
  else if e.ng_backing_ok then (some (), [Ev.createPixmap])
  else (none, [Ev.createPixmap, Ev.destroyPixmap])

/-- An environment in which every collaborator call succeeds. -/
def envAllOk : ImportEnv :=
  ⟨true, true, true, true, true, true, true, true, true, true, true⟩

/-- The environment of the non-accelerated scenarios: glamor inactive,
every other collaborator call succeeding. -/
def envNonGlamor : ImportEnv :=
  ⟨false, true, true, true, true, true, true, true, true, true, true⟩

/-- Membership in the trace of the post-import glamor tail: the tail only
ever appends a `destroyPixmap` event, so membership of any other event is
membership in the prefix. -/
theorem mem_glamor_after_import (e : ImportEnv) (t : List Ev) (x : Ev)
    (hx : x ≠ Ev.destroyPixmap) :
    (x ∈ (glamor_after_import e t).2 ↔ x ∈ t) := by
  unfold glamor_after_import
  split
  · split
    · simp
    · simp [hx]
  · simp [hx]

/-- C1: on the accelerated (glamor) import path of `pixmap_from_fds` (glamor
active, GBM device present, pixmap creation succeeding, depth known to the
format table), the multi-plane tiled import is attempted exactly when the
modifier differs from DRM_FORMAT_MOD_INVALID and more than one fd is
supplied; with exactly one fd the single-plane import is attempted instead
and no tiled import happens. -/
theorem C1_glamor_import_path_selection (e : ImportEnv) (num_fds : Nat)
    (fds : List Int) (width height : Nat) (strides offsets : List Nat)
    (depth bpp modifier : Nat)
    (hg : e.use_glamor = true) (hd : e.gbm_device = true)
    (hc : e.create_ok = true) (hf : (gbm_format_from_depth depth).isSome = true) :
    (Ev.importMulti ∈ (amdgpu_dri3_pixmap_from_fds e num_fds fds width height
        strides offsets depth bpp modifier).2
      ↔ (modifier ≠ DRM_FORMAT_MOD_INVALID ∧ 1 < num_fds))
    ∧ (num_fds = 1 →
        Ev.importSingle ∈ (amdgpu_dri3_pixmap_from_fds e num_fds fds width height
          strides offsets depth bpp modifier).2
        ∧ Ev.importMulti ∉ (amdgpu_dri3_pixmap_from_fds e num_fds fds width height
          strides offsets depth bpp modifier).2) := by
  obtain ⟨f, hsome⟩ := Option.isSome_iff_exists.mp hf
  simp only [amdgpu_dri3_pixmap_from_fds, hg, hd, hc, hsome, Bool.not_true,
    Bool.false_eq_true, if_false]
  by_cases hm : modifier ≠ DRM_FORMAT_MOD_INVALID ∧ 1 < num_fds
  · rw [if_pos hm]
    refine ⟨⟨fun _ => hm, fun _ => ?_⟩, fun h1 => absurd hm.2 (by omega)⟩
    by_cases himp : e.import_multi_ok
    · rw [if_pos himp, mem_glamor_after_import e _ _ (by decide)]
      decide
    · rw [if_neg himp]
      decide
  · rw [if_neg hm]
    by_cases h1 : num_fds = 1
    · rw [if_neg (by omega)]
      by_cases his : e.import_single_ok
      · rw [if_pos his]
        rw [mem_glamor_after_import e _ _ (by decide),
            mem_glamor_after_import e _ _ (by decide)]
        exact ⟨by simp [hm], fun _ => ⟨by decide, by decide⟩⟩
      · rw [if_neg his]
        exact ⟨by simp [hm], fun _ => ⟨by decide, by decide⟩⟩
    · rw [if_pos h1]
      exact ⟨by simp [hm], fun h => absurd h h1⟩

/-- Witness for C1: accelerated import, 1 fd, modifier the linear sentinel,
depth 24, every collaborator call succeeding — the single-plane path is
taken, no tiled import happens, and the surface is created. -/
theorem C1_glamor_import_path_selection_witness :
    envAllOk.use_glamor = true ∧ envAllOk.gbm_device = true
    ∧ envAllOk.create_ok = true ∧ (gbm_format_from_depth 24).isSome = true
    ∧ ((Ev.importMulti ∈ (amdgpu_dri3_pixmap_from_fds envAllOk 1 [3] 64 64
          [256] [0] 24 32 DRM_FORMAT_MOD_INVALID).2
        ↔ (DRM_FORMAT_MOD_INVALID ≠ DRM_FORMAT_MOD_INVALID ∧ 1 < 1))
       ∧ (1 = 1 →
           Ev.importSingle ∈ (amdgpu_dri3_pixmap_from_fds envAllOk 1 [3] 64 64
             [256] [0] 24 32 DRM_FORMAT_MOD_INVALID).2
           ∧ Ev.importMulti ∉ (amdgpu_dri3_pixmap_from_fds envAllOk 1 [3] 64 64
             [256] [0] 24 32 DRM_FORMAT_MOD_INVALID).2))
    ∧ (amdgpu_dri3_pixmap_from_fds envAllOk 1 [3] 64 64 [256] [0] 24 32
        DRM_FORMAT_MOD_INVALID).1 = some () :=
  ⟨rfl, rfl, rfl, rfl,
   C1_glamor_import_path_selection envAllOk 1 [3] 64 64 [256] [0] 24 32
     DRM_FORMAT_MOD_INVALID rfl rfl rfl rfl,
   by decide⟩

set_option maxHeartbeats 1000000 in
/-- C6: import via `pixmap_from_fds` with zero planes always returns NULL,
on both the accelerated and the non-accelerated path, for every geometry,
depth, bpp and modifier and every collaborator behaviour. -/
theorem C6_zero_planes_always_fail (e : ImportEnv) (fds : List Int)
    (width height : Nat) (strides offsets : List Nat) (depth bpp modifier : Nat) :
    (amdgpu_dri3_pixmap_from_fds e 0 fds width height strides offsets
      depth bpp modifier).1 = none := by
  cases hgf : gbm_format_from_depth depth <;>
    simp only [amdgpu_dri3_pixmap_from_fds, pixmap_from_fds_non_glamor,
      glamor_after_import, hgf] <;>
    split_ifs <;> simp_all

/-- C5: with acceleration inactive, import always fails when more than one
fd is supplied, when depth < 8, or when bpp is outside {8, 16, 32} — for
`pixmap_from_fds` (all three checks) and for `pixmap_from_fd` (depth and
bpp checks; it takes a single fd by signature). -/
theorem C5_non_glamor_validation (e : ImportEnv) (num_fds : Nat)
    (fds : List Int) (width height : Nat) (strides offsets : List Nat)
    (depth bpp modifier : Nat) (fd : Int) (stride : Nat)
    (hng : e.use_glamor = false) :
    (1 < num_fds →
      (amdgpu_dri3_pixmap_from_fds e num_fds fds width height strides offsets
        depth bpp modifier).1 = none)
    ∧ (depth < 8 →
        (amdgpu_dri3_pixmap_from_fds e num_fds fds width height strides offsets
          depth bpp modifier).1 = none
        ∧ (amdgpu_dri3_pixmap_from_fd e fd width height stride depth bpp).1 = none)
    ∧ (bpp ≠ 8 ∧ bpp ≠ 16 ∧ bpp ≠ 32 →
        (amdgpu_dri3_pixmap_from_fds e num_fds fds width height strides offsets
          depth bpp modifier).1 = none
        ∧ (amdgpu_dri3_pixmap_from_fd e fd width height stride depth bpp).1 = none) := by
  simp only [amdgpu_dri3_pixmap_from_fds, pixmap_from_fds_non_glamor,
    amdgpu_dri3_pixmap_from_fd, hng, Bool.not_false, if_true, Bool.false_eq_true,
    false_and, if_false]
  split_ifs <;> simp_all

/-- Witness for C5: glamor inactive; 2 fds fail, depth 4 fails, bpp 12 fails. -/
theorem C5_non_glamor_validation_witness :
    envNonGlamor.use_glamor = false
    ∧ (amdgpu_dri3_pixmap_from_fds envNonGlamor 2 [3, 4] 64 64 [256, 256] [0, 0]
        24 32 0).1 = none
    ∧ (amdgpu_dri3_pixmap_from_fds envNonGlamor 1 [3] 64 64 [256] [0]
        4 32 0).1 = none
    ∧ (amdgpu_dri3_pixmap_from_fd envNonGlamor 3 64 64 256 24 12).1 = none :=
  ⟨rfl,
   (C5_non_glamor_validation envNonGlamor 2 [3, 4] 64 64 [256, 256] [0, 0]
     24 32 0 3 256 rfl).1 (by decide),
   ((C5_non_glamor_validation envNonGlamor 1 [3] 64 64 [256] [0]
     4 32 0 3 256 rfl).2.1 (by decide)).1,
   ((C5_non_glamor_validation envNonGlamor 1 [3] 64 64 [256] [0]
     24 12 0 3 256 rfl).2.2 (by decide)).2⟩

set_option maxHeartbeats 1000000 in
/-- C7: both import operations are atomic on failure: whenever
`pixmap_from_fds` or `pixmap_from_fd` returns NULL, every pixmap creation in
its trace is matched by a destruction, and no caller-supplied fd is closed. -/
theorem C7_import_failure_atomicity (e : ImportEnv) (num_fds : Nat)
    (fds : List Int) (width height : Nat) (strides offsets : List Nat)
    (depth bpp modifier : Nat) (fd : Int) (stride : Nat) :
    ((amdgpu_dri3_pixmap_from_fds e num_fds fds width height strides offsets
        depth bpp modifier).1 = none →
      (amdgpu_dri3_pixmap_from_fds e num_fds fds width height strides offsets
        depth bpp modifier).2.count Ev.createPixmap
        = (amdgpu_dri3_pixmap_from_fds e num_fds fds width height strides offsets
          depth bpp modifier).2.count Ev.destroyPixmap
      ∧ Ev.closeFd ∉ (amdgpu_dri3_pixmap_from_fds e num_fds fds width height
          strides offsets depth bpp modifier).2)
    ∧ ((amdgpu_dri3_pixmap_from_fd e fd width height stride depth bpp).1 = none →
      (amdgpu_dri3_pixmap_from_fd e fd width height stride depth bpp).2.count
          Ev.createPixmap
        = (amdgpu_dri3_pixmap_from_fd e fd width height stride depth bpp).2.count
          Ev.destroyPixmap
      ∧ Ev.closeFd ∉ (amdgpu_dri3_pixmap_from_fd e fd width height stride
          depth bpp).2) := by
  constructor
  · cases hgf : gbm_format_from_depth depth <;>
      simp only [amdgpu_dri3_pixmap_from_fds, pixmap_from_fds_non_glamor,
        glamor_after_import, hgf] <;>
      split_ifs <;> intro h <;> simp_all
  · simp only [amdgpu_dri3_pixmap_from_fd]
    split_ifs <;> intro h <;> simp_all

/-- Witness for C7: with glamor inactive, zero fds and depth 4, both entry
points fail, with balanced create/destroy traces and no fd closed. -/
theorem C7_import_failure_atomicity_witness :
    ((amdgpu_dri3_pixmap_from_fds envNonGlamor 0 [] 64 64 [] [] 4 32 0).2.count
        Ev.createPixmap
      = (amdgpu_dri3_pixmap_from_fds envNonGlamor 0 [] 64 64 [] [] 4 32 0).2.count
        Ev.destroyPixmap
     ∧ Ev.closeFd ∉ (amdgpu_dri3_pixmap_from_fds envNonGlamor 0 [] 64 64 [] []
        4 32 0).2)
    ∧ ((amdgpu_dri3_pixmap_from_fd envNonGlamor 3 64 64 256 4 32).2.count
        Ev.createPixmap
      = (amdgpu_dri3_pixmap_from_fd envNonGlamor 3 64 64 256 4 32).2.count
        Ev.destroyPixmap
     ∧ Ev.closeFd ∉ (amdgpu_dri3_pixmap_from_fd envNonGlamor 3 64 64 256 4 32).2) :=
  ⟨(C7_import_failure_atomicity envNonGlamor 0 [] 64 64 [] [] 4 32 0 3 256).1
     (by decide),
   (C7_import_failure_atomicity envNonGlamor 0 [] 64 64 [] [] 4 32 0 3 256).2
     (by decide)⟩

/-- X.h protocol status values used by the open path. -/
inductive XStat where
  | Success
  | BadAlloc
  | BadMatch
deriving DecidableEq

/-- The X11 numeric codes of the three statuses (X.h: Success = 0,
BadMatch = 8, BadAlloc = 11). -/
def xStatCode : XStat → Nat
  | XStat.Success => 0
  | XStat.BadAlloc => 11
  | XStat.BadMatch => 8

/-- Events recording the libdrm calls of the open path: the magic-number
handshake (`drmGetMagic`, `drmAuthMagic`) and a `close` of the freshly
opened fd. -/
inductive OpenEv where
  | getMagic
  | authMagic
  | closeFd
deriving DecidableEq

/-- Outcomes of the external calls made by the device-open path:
whether a render-node path is recorded (`pAMDGPUEnt->render_node`),
whether each `open` succeeds and which fd it yields, the `drmGetMagic`
outcome (`none` = success, `some errno` = failure with that errno), and
the `drmAuthMagic` outcome. -/
structure OpenEnv where
  render_node : Bool
  render_open_ok : Bool
  card_open_ok : Bool
  magic_err : Option Nat
  auth_ok : Bool
  render_fd : Nat
  card_fd : Nat
deriving DecidableEq

/-- `open_card_node` (amdgpu_dri3.c, lines 41-85): open the card node,
request a magic number; an EACCES failure is treated as an
already-authorized render node (fd returned, Success); any other
`drmGetMagic` failure, or a refused `drmAuthMagic`, closes the fd and
yields BadMatch. -/
def open_card_node (e : OpenEnv) : XStat × Option Nat × List OpenEv :=
  if !e.card_open_ok then (XStat.BadAlloc, none, [])
  else
    match e.magic_err with
    | some errno =>
      if errno = EACCES then (XStat.Success, some e.card_fd, [OpenEv.getMagic])
      else (XStat.BadMatch, none, [OpenEv.getMagic, OpenEv.closeFd])
    | none =>
      if e.auth_ok then
        (XStat.Success, some e.card_fd, [OpenEv.getMagic, OpenEv.authMagic])
      else
        (XStat.BadMatch, none, [OpenEv.getMagic, OpenEv.authMagic, OpenEv.closeFd])

/-- `open_render_node` (amdgpu_dri3.c, lines 87-99): open the render node;
no handshake of any kind. -/
def open_render_node (e : OpenEnv) : XStat × Option Nat × List OpenEv :=
  if !e.render_open_ok then (XStat.BadAlloc, none, [])
  else (XStat.Success, some e.render_fd, [])

/-- `amdgpu_dri3_open` (amdgpu_dri3.c, lines 101-115): `ret` starts as
BadAlloc, is replaced by the render-node attempt when a render-node path is
known, and any non-Success result falls back to `open_card_node`. -/
def amdgpu_dri3_open (e : OpenEnv) : XStat × Option Nat × List OpenEv :=
  let ret := if e.render_node then open_render_node e
             else (XStat.BadAlloc, none, [])
  if ret.1 ≠ XStat.Success then open_card_node e else ret

/-- C2: `amdgpu_dri3_open` prefers the render node when known, returning
Success with its fd and no magic handshake; otherwise it falls back to the
card node, where open failure gives BadAlloc, an EACCES magic failure still
gives Success with the fd, and any other magic failure or refused
authorization gives BadMatch with the fd closed; the three statuses carry
distinct protocol codes. -/
theorem C2_open_device_tristate (e : OpenEnv) :
    (e.render_node = true → e.render_open_ok = true →
      amdgpu_dri3_open e = (XStat.Success, some e.render_fd, []))
    ∧ ((e.render_node = false ∨ e.render_open_ok = false) →
        amdgpu_dri3_open e = open_card_node e)
    ∧ (e.card_open_ok = false → open_card_node e = (XStat.BadAlloc, none, []))
    ∧ (e.card_open_ok = true → e.magic_err = some EACCES →
        open_card_node e = (XStat.Success, some e.card_fd, [OpenEv.getMagic]))
    ∧ (e.card_open_ok = true → ∀ er : Nat, e.magic_err = some er → er ≠ EACCES →
        open_card_node e = (XStat.BadMatch, none, [OpenEv.getMagic, OpenEv.closeFd]))
    ∧ (e.card_open_ok = true → e.magic_err = none → e.auth_ok = false →
        open_card_node e
          = (XStat.BadMatch, none, [OpenEv.getMagic, OpenEv.authMagic, OpenEv.closeFd]))
    ∧ (xStatCode XStat.Success ≠ xStatCode XStat.BadAlloc
       ∧ xStatCode XStat.Success ≠ xStatCode XStat.BadMatch
       ∧ xStatCode XStat.BadAlloc ≠ xStatCode XStat.BadMatch) := by
  refine ⟨?_, ?_, ?_, ?_, ?_, ?_, by decide⟩
  · intro hr ho
    simp [amdgpu_dri3_open, open_render_node, hr, ho]
  · intro h
    rcases h with h | h
    · simp [amdgpu_dri3_open, h]
    · simp only [amdgpu_dri3_open, open_render_node, h, Bool.not_false, if_true]
      split <;> simp_all
  · intro h
    simp [open_card_node, h]
  · intro hc hm
    simp [open_card_node, hc, hm]
  · intro hc er hm hne
    simp [open_card_node, hc, hm, hne]
  · intro hc hm ha
    simp [open_card_node, hc, hm, ha]

/-- Witness for C2: no render node, card open succeeding, magic failing
with EACCES — the fd is still returned as Success. -/
theorem C2_open_device_tristate_witness :
    ((⟨false, true, true, some EACCES, true, 5, 7⟩ : OpenEnv).render_node = false
      ∨ (⟨false, true, true, some EACCES, true, 5, 7⟩ : OpenEnv).render_open_ok = false)
    ∧ amdgpu_dri3_open ⟨false, true, true, some EACCES, true, 5, 7⟩
        = open_card_node ⟨false, true, true, some EACCES, true, 5, 7⟩
    ∧ open_card_node ⟨false, true, true, some EACCES, true, 5, 7⟩
        = (XStat.Success, some 7, [OpenEv.getMagic]) :=
  ⟨Or.inl rfl,
   (C2_open_device_tristate ⟨false, true, true, some EACCES, true, 5, 7⟩).2.1
     (Or.inl rfl),
   (C2_open_device_tristate ⟨false, true, true, some EACCES, true, 5, 7⟩).2.2.2.1
     rfl rfl⟩

/-- Outcomes of the external calls made by the two export entry points:
glamor activity, the `glamor_fd_from_pixmap` result (`some (fd, stride,
size)` on success), presence of the pixmap buffer object
(`amdgpu_get_pixmap_bo`), whether the bo carries AMDGPU_BO_FLAGS_GBM and
what `gbm_bo_get_modifier` returns for it, and the `amdgpu_bo_query_info`
and `amdgpu_bo_export` outcomes with the queried allocation size and the
exported dma-buf fd. -/
structure ExportEnv where
  use_glamor : Bool
  glamor_fd : Option (Nat × Nat × Nat)
  has_bo : Bool
  bo_is_gbm : Bool
  gbm_modifier : Nat
  query_ok : Bool
  alloc_size : Nat
  export_ok : Bool
  export_fd : Nat
deriving DecidableEq

/-- The out-parameters of `amdgpu_dri3_fd_from_pixmap`: `none` models a
pointer the function never wrote through. -/
structure FdOut where
  stride : Option Nat
  size : Option Nat
deriving DecidableEq

/-- The out-parameters of `amdgpu_dri3_fds_from_pixmap` (single plane):
`none` models a field the function never wrote. -/
structure FdsOut where
  fd0 : Option Nat
  stride0 : Option Nat
  offset0 : Option Nat
  modifier : Option Nat
deriving DecidableEq

/-- `amdgpu_dri3_fd_from_pixmap` (amdgpu_dri3.c, lines 330-371): glamor
path delegates to `glamor_fd_from_pixmap` (modelled as writing stride and
size exactly on success); the direct path looks up the buffer object,
guards `devKind > UINT16_MAX`, queries the bo, exports a dma-buf fd, and
only then writes `*stride` and `*size`.  The return value is the C `int`
result: fd on success, -1 on failure. -/
def amdgpu_dri3_fd_from_pixmap (e : ExportEnv) (devKind : Nat) : Int × FdOut :=
  if e.use_glamor then
    match e.glamor_fd with
    | some (fd, s, z) => ((fd : Int), ⟨some s, some z⟩)
    | none => (-1, ⟨none, none⟩)
  else
    if !e.has_bo then (-1, ⟨none, none⟩)
    else if 65535 < devKind then (-1, ⟨none, none⟩)
    else if !e.query_ok then (-1, ⟨none, none⟩)
    else if !e.export_ok then (-1, ⟨none, none⟩)
    else ((e.export_fd : Int), ⟨some devKind, some e.alloc_size⟩)

/-- `amdgpu_dri3_fds_from_pixmap` (amdgpu_dri3.c, lines 373-446): glamor
path reuses `glamor_fd_from_pixmap` and always reports the invalid (linear)
modifier; the direct path guards `devKind > UINT32_MAX`, queries and
exports the bo, reports a zero offset, and reports the GBM modifier only
when the bo was allocated through GBM and that modifier is not the invalid
sentinel, the invalid sentinel otherwise.  Returns 1 on success, -1 on
failure. -/
def amdgpu_dri3_fds_from_pixmap (e : ExportEnv) (devKind : Nat) : Int × FdsOut :=
  if e.use_glamor then
    match e.glamor_fd with
    | none => (-1, ⟨none, none, none, none⟩)
    | some (fd, s, _z) =>
      (1, ⟨some fd, some s, some 0, some DRM_FORMAT_MOD_INVALID⟩)
  else
    if !e.has_bo then (-1, ⟨none, none, none, none⟩)
    else if 4294967295 < devKind then (-1, ⟨none, none, none, none⟩)
    else if !e.query_ok then (-1, ⟨none, none, none, none⟩)
    else if !e.export_ok then (-1, ⟨none, none, none, none⟩)
    else
      (1, ⟨some e.export_fd, some devKind, some 0,
        some (if e.bo_is_gbm ∧ e.gbm_modifier ≠ DRM_FORMAT_MOD_INVALID
              then e.gbm_modifier else DRM_FORMAT_MOD_INVALID)⟩)

/-- C3: on the direct (non-glamor) export path, `fd_from_pixmap` fails with
the negative sentinel and writes nothing whenever the stride exceeds 65535;
`fds_from_pixmap` fails whenever it exceeds the 32-bit limit; and on the
direct path every failure returns -1 with no output field written. -/
theorem C3_export_stride_guards (e : ExportEnv) (devKind : Nat)
    (hng : e.use_glamor = false) :
    (65535 < devKind →
      amdgpu_dri3_fd_from_pixmap e devKind = (-1, ⟨none, none⟩))
    ∧ (4294967295 < devKind →
        amdgpu_dri3_fds_from_pixmap e devKind = (-1, ⟨none, none, none, none⟩))
    ∧ ((amdgpu_dri3_fd_from_pixmap e devKind).1 < 0 →
        amdgpu_dri3_fd_from_pixmap e devKind = (-1, ⟨none, none⟩))
    ∧ ((amdgpu_dri3_fds_from_pixmap e devKind).1 < 0 →
        amdgpu_dri3_fds_from_pixmap e devKind = (-1, ⟨none, none, none, none⟩)) := by
  simp only [amdgpu_dri3_fd_from_pixmap, amdgpu_dri3_fds_from_pixmap, hng,
    Bool.false_eq_true, if_false]
  split_ifs <;> simp_all

/-- Witness for C3: direct path, bo present and healthy, stride 70000 —
the single-fd export fails cleanly; and at stride 2^33 the multi-fd export
fails cleanly too. -/
theorem C3_export_stride_guards_witness :
    (⟨false, none, true, false, 0, true, 4096, true, 9⟩ : ExportEnv).use_glamor = false
    ∧ amdgpu_dri3_fd_from_pixmap ⟨false, none, true, false, 0, true, 4096, true, 9⟩
        70000 = (-1, ⟨none, none⟩)
    ∧ amdgpu_dri3_fds_from_pixmap ⟨false, none, true, false, 0, true, 4096, true, 9⟩
        8589934592 = (-1, ⟨none, none, none, none⟩) :=
  ⟨rfl,
   (C3_export_stride_guards ⟨false, none, true, false, 0, true, 4096, true, 9⟩
     70000 rfl).1 (by decide),
   (C3_export_stride_guards ⟨false, none, true, false, 0, true, 4096, true, 9⟩
     8589934592 rfl).2.1 (by decide)⟩

/-- C8: modifier reporting of `fds_from_pixmap`: on a successful direct
export the reported modifier is the GBM modifier when the bo came from GBM
and that modifier is not the invalid sentinel, and the linear sentinel
otherwise; on the glamor path a successful export always reports the linear
sentinel (returning 1, not failing). -/
theorem C8_fds_modifier_reporting (e : ExportEnv) (devKind : Nat) :
    (e.use_glamor = false → e.has_bo = true → devKind ≤ 4294967295 →
      e.query_ok = true → e.export_ok = true →
      (amdgpu_dri3_fds_from_pixmap e devKind).1 = 1
      ∧ (amdgpu_dri3_fds_from_pixmap e devKind).2.modifier
          = some (if e.bo_is_gbm ∧ e.gbm_modifier ≠ DRM_FORMAT_MOD_INVALID
                  then e.gbm_modifier else DRM_FORMAT_MOD_INVALID))
    ∧ (e.use_glamor = true → ∀ fd s z : Nat, e.glamor_fd = some (fd, s, z) →
        (amdgpu_dri3_fds_from_pixmap e devKind).1 = 1
        ∧ (amdgpu_dri3_fds_from_pixmap e devKind).2.modifier
            = some DRM_FORMAT_MOD_INVALID) := by
  constructor
  · intro hg hb hk hq he
    have hk2 : ¬ (4294967295 < devKind) := by omega
    simp [amdgpu_dri3_fds_from_pixmap, hg, hb, hk2, hq, he]
  · intro hg fd s z hfd
    simp [amdgpu_dri3_fds_from_pixmap, hg, hfd]

/-- Witness for C8: a direct export of a GBM-allocated bo with a real GFX9
tile modifier reports that modifier; a glamor export reports the sentinel. -/
theorem C8_fds_modifier_reporting_witness :
    ((⟨false, none, true, true, 0x0200000000000009, true, 4096, true, 9⟩ :
        ExportEnv).use_glamor = false
     ∧ (amdgpu_dri3_fds_from_pixmap
          ⟨false, none, true, true, 0x0200000000000009, true, 4096, true, 9⟩ 256).1 = 1
     ∧ (amdgpu_dri3_fds_from_pixmap
          ⟨false, none, true, true, 0x0200000000000009, true, 4096, true, 9⟩ 256).2.modifier
        = some (if (true : Bool) ∧ (0x0200000000000009 : Nat) ≠ DRM_FORMAT_MOD_INVALID
                then 0x0200000000000009 else DRM_FORMAT_MOD_INVALID))
    ∧ ((amdgpu_dri3_fds_from_pixmap
          ⟨true, some (9, 256, 4096), true, false, 0, true, 4096, true, 9⟩ 256).1 = 1
       ∧ (amdgpu_dri3_fds_from_pixmap
          ⟨true, some (9, 256, 4096), true, false, 0, true, 4096, true, 9⟩ 256).2.modifier
          = some DRM_FORMAT_MOD_INVALID) :=
  ⟨⟨rfl,
    ((C8_fds_modifier_reporting
      ⟨false, none, true, true, 0x0200000000000009, true, 4096, true, 9⟩ 256).1
      rfl rfl (by decide) rfl rfl).1,
    ((C8_fds_modifier_reporting
      ⟨false, none, true, true, 0x0200000000000009, true, 4096, true, 9⟩ 256).1
      rfl rfl (by decide) rfl rfl).2⟩,
   (C8_fds_modifier_reporting
      ⟨true, some (9, 256, 4096), true, false, 0, true, 4096, true, 9⟩ 256).2
      rfl 9 256 4096 rfl⟩
